import Mathlib

/-!
Shallow embedding of the Request-Handler-Python repository
(src/logger.py and src/requesthandler.py) and verification of the
specification claims about it.

Conventions of the embedding:
* Python strings are Lean `String`; `sub in s` is `pyIn sub s`,
  modelled as contiguous-substring (infix) containment on character lists.
* Optional Python arguments defaulting to `None` are `Option` values;
  Python truthiness of an optional string is `strTruthy` (both `None`
  and `""` are falsy), of an optional positive int limit is `optTruthy`
  (both `None` and `0` are falsy).
* Python dicts that the code only iterates or key-tests are association
  lists `List (String × String)` (insertion ordered, like CPython dicts).
* The network transport (the `requests` library) is a black box: each
  request either completes with a status code and body, raises
  `requests.ConnectionError` with some error text, or raises some other
  exception with some error text.  This is the `TransportResult` input.
* Exceptions raised by the code become `Except PyError` results.
* Console printing is modelled by returning the rendered line instead of
  printing it; the module-global `_enabled` switch is passed explicitly.
-/

/-- Python `sub in s` on strings: contiguous substring containment. -/
def pyIn (sub s : String) : Bool :=
  decide (sub.toList <:+: s.toList)

/-- Python truthiness of an optional string: `None` and `""` are falsy. -/
def strTruthy : Option String → Bool
  | none => false
  | some s => s != ""

/-- Python truthiness of an optional numeric limit: `None` and `0` are falsy. -/
def optTruthy : Option Nat → Bool
  | none => false
  | some n => n != 0

/-- Python `sep.join(xs)`. -/
def pyJoin (sep : String) : List String → String
  | [] => ""
  | [x] => x
  | x :: xs => x ++ sep ++ pyJoin sep xs

/-- Split a character list at every newline character. -/
def splitNl : List Char → List (List Char)
  | [] => [[]]
  | c :: rest =>
    if c = '\n' then [] :: splitNl rest
    else
      match splitNl rest with
      | [] => [[c]]
      | l :: ls => (c :: l) :: ls

/-- Python `str.splitlines()`, modelling `\n` line breaks (the only kind of
line break occurring in this repository): splitting on `\n` does not produce
a final empty line for a trailing newline, and the empty string has no lines. -/
def pythonSplitlines (s : String) : List String :=
  if s = "" then []
  else
    let parts := (splitNl s.toList).map String.mk
    match parts.getLast? with
    | some "" => parts.dropLast
    | _ => parts

/-! ## src/logger.py -/

/-- `LoggingLevel` enumeration from src/logger.py. -/
inductive LoggingLevel where
  | Debug
  | Info
  | Important
  | VeryImportant
  | SuperImportant
  | Warning
deriving DecidableEq, Repr

/-- Python `level.name` for the `LoggingLevel` enum. -/
def LoggingLevel.name : LoggingLevel → String
  | .Debug => "Debug"
  | .Info => "Info"
  | .Important => "Important"
  | .VeryImportant => "VeryImportant"
  | .SuperImportant => "SuperImportant"
  | .Warning => "Warning"

/-- The `Logging` class of src/logger.py: the boolean options set by
`_fromoptions` (field defaults are the hardcoded `_defaults` of the module,
which also are the `_fromoptions` parameter defaults) together with the
`Log` history list.  The history stores the plain message strings, exactly
as `self.Log.append(message)` does. -/
structure Logging where
  colorized : Bool := true
  printwarnings : Bool := true
  printdebug : Bool := false
  printinfo : Bool := true
  printimportant : Bool := true
  printveryimportant : Bool := true
  printsuperimportant : Bool := true
  printspecial : Bool := true
  donotprintspecial : Bool := false
  donotprintsuccessinfo : Bool := false
  allowoverride : Bool := true
  printall : Bool := true
  printnone : Bool := false
  Log : List String := []
deriving DecidableEq, Repr

/-- The gating decision of `Logging.log` (src/logger.py lines 80-102):
whether the body of `log` reaches `self.printmessage` (before the final
conjunction with the module-global `_enabled`).  Transcribes the early
returns and the `toprint` if/elif chain in source order. -/
def Logging.shouldPrint (self : Logging) (level : LoggingLevel)
    (override : Bool) (successinfo : Bool) (special : Bool) : Bool :=
  if self.printnone then false
  else if !(override && self.allowoverride) && (successinfo && self.donotprintsuccessinfo) then false
  else if !(override && self.allowoverride) && (special && self.donotprintspecial) then false
  else if self.printall then true
  else if level == .Debug && self.printdebug then true
  else if level == .Info && self.printinfo then true
  else if level == .Important && self.printimportant then true
  else if level == .VeryImportant && self.printveryimportant then true
  else if level == .SuperImportant && self.printsuperimportant then true
  else if special && self.printspecial then true
  else false

/-- The per-level flag consulted by step 4 of the gate (the `elif` chain on
`level`); `Warning` has no branch in that chain, so its flag is `false`. -/
def Logging.levelFlag (self : Logging) : LoggingLevel → Bool
  | .Debug => self.printdebug
  | .Info => self.printinfo
  | .Important => self.printimportant
  | .VeryImportant => self.printveryimportant
  | .SuperImportant => self.printsuperimportant
  | .Warning => false

/-- The `colors` table of `Logging.printmessage` (ANSI escapes). -/
def Logging.colors : List (String × String) :=
  [("Debug", "\x1b[0m"), ("Info", "\x1b[94m"), ("Important", "\x1b[95m"),
   ("VeryImportant", "\x1b[96m"), ("SuperImportant", "\x1b[93m"),
   ("Warning", "\x1b[91m"), ("Special", "\x1b[92m"), ("reset", "\x1b[0m")]

/-- `Logging.printmessage`, returning the rendered console line. -/
def Logging.printmessage (message : String) (level : LoggingLevel)
    (special : Bool) (colorized : Bool) : String :=
  if colorized then
    if special then
      (List.lookup "Special" Logging.colors).getD "" ++ "[" ++ level.name
        ++ "] [Special]: " ++ message ++ (List.lookup "reset" Logging.colors).getD ""
    else
      match List.lookup level.name Logging.colors with
      | some c => c ++ "[" ++ level.name ++ "]: " ++ message
          ++ (List.lookup "reset" Logging.colors).getD ""
      | none => "[" ++ level.name ++ "]: " ++ message
  else
    if special then "[" ++ level.name ++ "] [Special]: " ++ message
    else "[" ++ level.name ++ "]: " ++ message

/-- `Logging.log` (src/logger.py lines 77-104).  `enabled` is the
module-global `_enabled`; the returned `Option String` is the console line
printed (`none` when nothing is printed). -/
def Logging.log (self : Logging) (enabled : Bool) (message : String)
    (level : LoggingLevel := .Info) (override : Bool := false)
    (successinfo : Bool := false) (special : Bool := false) :
    Logging × Option String :=
  let appended : Logging := { self with Log := self.Log ++ [message] }
  if self.shouldPrint level override successinfo special && enabled then
    (appended, some (Logging.printmessage message level special self.colorized))
  else
    (appended, none)

/-- `Logging.warning` (src/logger.py lines 135-143). -/
def Logging.warning (self : Logging) (enabled : Bool) (message : String)
    (warningtype : Option String := none) : Logging × Option String :=
  if strTruthy warningtype then
    ({ self with Log := self.Log ++ ["[Warning]: " ++ warningtype.getD "" ++ ": " ++ message] },
     if self.printwarnings && enabled then
       some (Logging.printmessage (warningtype.getD "" ++ ": " ++ message) .Warning false self.colorized)
     else none)
  else
    ({ self with Log := self.Log ++ ["[Warning]: " ++ message] },
     if self.printwarnings && enabled then
       some (Logging.printmessage message .Warning false self.colorized)
     else none)

/-! ## src/requesthandler.py : helpers -/

/-- The truncation marker appended by `_truncatestring`. -/
def truncatedMarker : String := "...[Truncated]"

/-- `_truncatestring` (src/requesthandler.py lines 37-55). -/
def truncatestring (s : String) (maxlength : Option Nat := some 1000)
    (maxlines : Option Nat := some 20) : String :=
  if optTruthy maxlength && decide (s.length > maxlength.getD 0) then
    String.mk (s.toList.take (maxlength.getD 0 - 1)) ++ truncatedMarker
  else
    let lines := pythonSplitlines s
    if optTruthy maxlines && decide (lines.length > maxlines.getD 0) then
      pyJoin "\n" (lines.take (maxlines.getD 0 - 1)) ++ truncatedMarker
    else s

/-- `_truncatedict` (src/requesthandler.py lines 58-95), on an association
list standing for the dict (values already rendered as strings). -/
def truncatedict (d : List (String × String)) (maxitems : Option Nat := some 10)
    (maxlengthperitem : Option Nat := some 50) (maxlinesperitem : Option Nat := some 1) :
    String :=
  let items := d.map (fun kv => truncatestring (kv.1 ++ ": " ++ kv.2) maxlengthperitem maxlinesperitem)
  let hastruncateditems := optTruthy maxitems && decide (items.length > maxitems.getD 0)
  let items := if hastruncateditems then items.take (maxitems.getD 0) else items
  let dictstring := "\x7b" ++
    pyJoin " " (items.enum.map (fun p => if p.1 < items.length - 1 then p.2 ++ "," else p.2))
    ++ "\x7d"
  if hastruncateditems then dictstring ++ "...[Truncated Items]" else dictstring

/-- `_list_items` (src/requesthandler.py lines 16-34) for an ordered list
(the unordered-input conversion branch is not exercised by the embedding,
whose callers always pass lists).  Callers never pass the empty list. -/
def listItems (items : List String) : String :=
  if items.length = 1 then items.headD ""
  else if items.length = 2 then items.headD "" ++ " and " ++ (items.drop 1).headD ""
  else String.join (items.dropLast.map (fun s => s ++ ", ")) ++ "and " ++ items.getLastD ""

/-! ## src/requesthandler.py : data model -/

/-- The exceptions that the embedded code can raise. `HTTPError` and its
subclass `NoInternetError` are declared in src/requesthandler.py;
`ValueError` is raised by `post` when the content type cannot be detected;
`AttributeError` arises from looking up a missing attribute. -/
inductive PyError where
  | httpError (msg : String)
  | noInternetError (msg : String)
  | valueError (msg : String)
  | attributeError (msg : String)
deriving DecidableEq, Repr

/-- Outcome of the underlying `requests` transport call, supplied as a
black-box input: a completed response, a `requests.ConnectionError` with
its error text, or any other exception with its error text. -/
inductive TransportResult where
  | success (status : Nat) (body : String)
  | connectionError (msg : String)
  | otherError (msg : String)
deriving DecidableEq, Repr

/-- The `data` body argument of `post`: a Python `str`, a `dict`
(values rendered as strings), or a value of any other type, carried with
its `str()` rendering. -/
inductive PostData where
  | str (s : String)
  | dict (d : List (String × String))
  | other (rendered : String)
deriving DecidableEq, Repr

/-- Python `repr` of a string-valued dict, used by `str(data)` on dicts. -/
def pyDictRepr (d : List (String × String)) : String :=
  "\x7b" ++ pyJoin ", " (d.map (fun kv => "\x27" ++ kv.1 ++ "\x27: \x27" ++ kv.2 ++ "\x27")) ++ "\x7d"

/-- Python `str(data)`. -/
def PostData.pyStr : PostData → String
  | .str s => s
  | .dict d => pyDictRepr d
  | .other rendered => rendered

/-- Python truthiness of the optional `data` argument: `None`, `""` and
`{}` are falsy.  Non-str non-dict bodies are modelled as truthy (the code
never branches on their truthiness before raising). -/
def dataTruthy : Option PostData → Bool
  | none => false
  | some (.str s) => s != ""
  | some (.dict d) => !d.isEmpty
  | some (.other _) => true

/-- Python truthiness of the optional `json` argument. -/
def jsonTruthy : Option (List (String × String)) → Bool
  | none => false
  | some j => !j.isEmpty

/-- The keyword arguments handed to `requests.get` / `requests.post`.
Fields the call site does not pass keep the `requests` default `none`:
`get` passes `params`, `headers`, `timeout`; `post` passes `json`,
`headers`, `timeout` (and neither passes `data`). -/
structure HttpRequest where
  url : String
  params : Option (List (String × String)) := none
  data : Option PostData := none
  json : Option (List (String × String)) := none
  headers : List (String × String) := []
  timeout : Option Int := none
deriving DecidableEq, Repr

/-- One invocation of `logging.log(...)` performed by the request helper:
the message together with the level and flags it was logged with. -/
structure LogCall where
  message : String
  level : LoggingLevel
  override : Bool
  successinfo : Bool
  special : Bool
deriving DecidableEq, Repr

/-- Decidable equality for `Except`, needed to evaluate request outcomes
on concrete inputs. -/
instance {ε α : Type} [DecidableEq ε] [DecidableEq α] : DecidableEq (Except ε α) := fun x y =>
  match x, y with
  | .ok a, .ok b =>
    if h : a = b then isTrue (by rw [h]) else isFalse (by simp [h])
  | .error a, .error b =>
    if h : a = b then isTrue (by rw [h]) else isFalse (by simp [h])
  | .ok _, .error _ => isFalse (by simp)
  | .error _, .ok _ => isFalse (by simp)

/-- Result of running `RequestHandler.get` / `RequestHandler.post`:
the returned response (status, body) or raised exception, the sequence of
`logging.log` calls performed, and the request handed to the transport
(`none` when the method raised before reaching the transport). -/
structure RequestResult where
  result : Except PyError (Nat × String)
  calls : List LogCall
  request : Option HttpRequest
deriving DecidableEq, Repr

/-- Prefixing of the optional `errormessage` argument onto a failure
message (`if errormessage: raise E(f"{errormessage}: ...")`). -/
def withContext (errormessage : Option String) (msg : String) : String :=
  if strTruthy errormessage then errormessage.getD "" ++ ": " ++ msg else msg

/-- Error text of a connection forcibly closed by the remote peer
(first substring test of the `except requests.ConnectionError` handler). -/
def forciblyClosedText : String :=
  "An existing connection was forcibly closed by the remote host"

/-- First of the three substrings whose joint presence means no internet. -/
def noConnText1 : String := "Failed to establish a new connection:"

/-- Second of the three no-internet substrings. -/
def noConnText2 : String := "Max retries exceeded with url:"

/-- Third of the three no-internet substrings. -/
def noConnText3 : String := "Caused by NewConnectionError"

/-! ## src/requesthandler.py : RequestHandler -/

/-- `RequestHandler.get` (src/requesthandler.py lines 117-213).
`transport` is the black-box outcome of the `requests.get` call; the
remaining parameters and defaults mirror the Python signature. -/
def RequestHandler.get (link : String) (transport : TransportResult)
    (params : List (String × String) := [])
    (auth : Option String := none)
    (cache : Bool := true)
    (headers : List (String × String) := [])
    (timeout : Int := 5)
    (errormessage : Option String := none)
    (exceptionifbadstatuscode : Bool := true) : RequestResult :=
  let timeoutOpt : Option Int := if timeout ≤ 0 then none else some timeout
  let headers1 :=
    if strTruthy auth && (List.lookup "Authorization" headers).isNone then
      headers ++ [("Authorization", auth.getD "")]
    else headers
  let headers2 :=
    if !cache && (List.lookup "Cache-Control" headers1).isNone then
      headers1 ++ [("Cache-Control", "no-cache")]
    else headers1
  let requestdatamessage : List String :=
    (if params.isEmpty then [] else
      ["params " ++ truncatedict params (some 3) (some 45) (some 1)]) ++
    (if headers2.isEmpty then [] else
      ["headers " ++ truncatedict headers2 (some 3) (some 45) (some 1)])
  let logmessage := "Making HTTP get request to " ++ link
  let logmessage :=
    if requestdatamessage.isEmpty then logmessage
    else logmessage ++ " with " ++ listItems requestdatamessage
  let logmessage :=
    match timeoutOpt with
    | some t => logmessage ++ " with timeout of " ++ toString t ++ " seconds..."
    | none => logmessage
  let calls : List LogCall := [⟨logmessage, .Info, false, false, false⟩]
  let req : HttpRequest := ⟨link, some params, none, none, headers2, timeoutOpt⟩
  let handled : Except PyError (Nat × String) × List LogCall :=
    match transport with
    | .connectionError e =>
      if pyIn forciblyClosedText e then
        (.error (.httpError (withContext errormessage
          ("HTTP get request to " ++ link ++ " failed - Connection forcibly closed by remote host"))),
         calls)
      else if pyIn noConnText1 e && pyIn noConnText2 e && pyIn noConnText3 e then
        (.error (.noInternetError (withContext errormessage
          ("HTTP get request to " ++ link ++ " failed - No internet connection"))),
         calls)
      else
        (.error (.httpError (withContext errormessage
          ("HTTP get request to " ++ link ++ " failed - " ++ e))),
         calls)
    | .otherError e =>
        (.error (.httpError (withContext errormessage
          ("HTTP get request to " ++ link ++ " failed - " ++ e))),
         calls)
    | .success status body =>
      if status == 200 then
        (.ok (status, body),
         calls ++ [⟨"Successfully made HTTP get request to " ++ link, .Info, false, true, false⟩])
      else if exceptionifbadstatuscode then
        (.error (.httpError (withContext errormessage
          ("HTTP get request to " ++ link ++ " failed - returned non-200 http status code ("
            ++ toString status ++ ")"))),
         calls)
      else
        (.ok (status, body),
         calls ++ [⟨"HTTP get request to " ++ link ++ " failed - returned non-200 http status code ("
            ++ toString status ++ ")", .Info, false, true, false⟩])
  ⟨handled.1, handled.2, some req⟩

/-- The `ValueError` message of `post` when the content type cannot be
detected.  The source interpolates `type(data).__class__.__name__`, which
evaluates to the string `type` for every value (the class of a class is
`type`), so the message is the same for every undetectable body. -/
def contentTypeErrorText (link : String) : String :=
  "Failed to make http post request to " ++ link ++
  ": Could not determine content type of data, which is of type type." ++
  " Please manually supply the content type using the contenttype parameter."

/-- `RequestHandler.post` (src/requesthandler.py lines 215-326).
`transport` is the black-box outcome of the `requests.post` call; the
remaining parameters and defaults mirror the Python signature.  The
wording quirks of the source are kept: the forcibly-closed branch and the
bad-status-with-errormessage branch say "get request" although this is
`post` (copy-paste in the source). -/
def RequestHandler.post (link : String) (transport : TransportResult)
    (data : Option PostData := none)
    (contenttype : Option String := none)
    (json : Option (List (String × String)) := none)
    (auth : Option String := none)
    (headers : List (String × String) := [])
    (timeout : Int := 5)
    (errormessage : Option String := none)
    (exceptionifbadstatuscode : Bool := true) : RequestResult :=
  let timeoutOpt : Option Int := if timeout ≤ 0 then none else some timeout
  let resolved : Except PyError (List (String × String) × List LogCall) :=
    match data with
    | some d =>
      if (List.lookup "Content-Type" headers).isNone then
        if strTruthy contenttype then
          .ok (headers ++ [("Content-Type", contenttype.getD "")], [])
        else
          match d with
          | .str _ =>
            .ok (headers ++ [("Content-Type", "text/plain")],
              [⟨"Automatically detected content type of data \"" ++
                truncatestring d.pyStr (some 100) (some 1) ++ "\": text/plain",
                .Info, false, false, false⟩])
          | .dict _ =>
            .ok (headers ++ [("Content-Type", "application/json")],
              [⟨"Automatically detected content type of data \"" ++
                truncatestring d.pyStr (some 100) (some 1) ++ "\": application/json",
                .Info, false, false, false⟩])
          | .other _ =>
            .error (.valueError (contentTypeErrorText link))
      else .ok (headers, [])
    | none => .ok (headers, [])
  match resolved with
  | .error err => ⟨.error err, [], none⟩
  | .ok (headers1, calls0) =>
    let headers2 :=
      if strTruthy auth && (List.lookup "Authorization" headers1).isNone then
        headers1 ++ [("Authorization", auth.getD "")]
      else headers1
    let requestdatamessage : List String :=
      (if dataTruthy data then
        ["data \"" ++ truncatestring ((data.map PostData.pyStr).getD "None") (some 100) (some 1) ++
         "\" of content type " ++ (List.lookup "Content-Type" headers2).getD ""]
      else ["empty body"]) ++
      (if jsonTruthy json then
        ["json " ++ truncatedict (json.getD []) (some 3) (some 45) (some 1)] else []) ++
      (if headers2.isEmpty then [] else
        ["headers " ++ truncatedict headers2 (some 3) (some 45) (some 1)])
    let logmessage := "Making HTTP post request to " ++ link
    let logmessage :=
      if requestdatamessage.isEmpty then logmessage
      else logmessage ++ " with " ++ listItems requestdatamessage
    let logmessage :=
      match timeoutOpt with
      | some t => logmessage ++ " with timeout of " ++ toString t ++ " seconds..."
      | none => logmessage
    let calls : List LogCall := calls0 ++ [⟨logmessage, .Info, false, false, false⟩]
    let req : HttpRequest := ⟨link, none, none, json, headers2, timeoutOpt⟩
    let handled : Except PyError (Nat × String) × List LogCall :=
      match transport with
      | .connectionError e =>
        if pyIn forciblyClosedText e then
          (.error (.httpError (withContext errormessage
            ("HTTP get request to " ++ link ++ " failed - Connection forcibly closed by remote host"))),
           calls)
        else if pyIn noConnText1 e && pyIn noConnText2 e && pyIn noConnText3 e then
          (.error (.noInternetError (withContext errormessage
            ("HTTP post request to " ++ link ++ " failed - No internet connection"))),
           calls)
        else
          (.error (.httpError (withContext errormessage
            ("HTTP post request to " ++ link ++ " failed - " ++ e))),
           calls)
      | .otherError e =>
          (.error (.httpError (withContext errormessage
            ("HTTP post request to " ++ link ++ " failed - " ++ e))),
           calls)
      | .success status body =>
        if status == 200 then
          (.ok (status, body),
           calls ++ [⟨"Successfully made HTTP post request to " ++ link, .Info, false, true, false⟩])
        else if exceptionifbadstatuscode then
          if strTruthy errormessage then
            (.error (.httpError (errormessage.getD "" ++ ": HTTP get request to " ++ link ++
              " failed - returned non-200 http status code (" ++ toString status ++ ")")),
             calls)
          else
            (.error (.httpError ("HTTP post request to " ++ link ++
              " failed - returned non-200 http status code (" ++ toString status ++ ")")),
             calls)
        else
          (.ok (status, body),
           calls ++ [⟨"HTTP post request to " ++ link ++ " failed - returned non-200 http status code ("
              ++ toString status ++ ")", .Info, false, true, false⟩])
    ⟨handled.1, handled.2, some req⟩

/-- `RequestHandler.check_internet` (src/requesthandler.py lines 328-349):
calls `get` with the given url and timeout and
`errormessage="Failed to check for internet connection"`, returns `False`
on `NoInternetError`, `True` when `get` returns normally; any other
exception raised by `get` propagates (is not caught). -/
def RequestHandler.check_internet (transport : TransportResult)
    (testurl : String := "https://www.example.com") (timeout : Int := 5) :
    Except PyError Bool × List LogCall :=
  let calls : List LogCall :=
    (if timeout != 0 then
      [⟨"Checking for internet connection with timeout of " ++ toString timeout ++ " seconds...",
        .Info, false, false, false⟩]
    else
      [⟨"Checking for internet connection...", .Info, false, false, false⟩]) ++
    [⟨"Using " ++ testurl ++ " to check for internet connection", .Debug, false, false, false⟩]
  let r := RequestHandler.get testurl transport [] none true [] timeout
    (some "Failed to check for internet connection") true
  match r.result with
  | .error (.noInternetError _) => (.ok false, calls ++ r.calls)
  | .error e => (.error e, calls ++ r.calls)
  | .ok _ =>
    (.ok true, calls ++ r.calls ++
      [⟨"Successfully confirmed internet connection!", .Info, false, true, false⟩])

/-! ## src/requesthandler.py : module level -/

/-- The attributes an instance of the `Logging` class has: the instance
attributes assigned in `_fromoptions` plus the methods defined in the
class body of src/logger.py. -/
def loggingInstanceAttributes : List String :=
  ["colorized", "printwarnings", "printdebug", "printinfo", "printimportant",
   "printveryimportant", "printsuperimportant", "printspecial", "donotprintspecial",
   "donotprintsuccessinfo", "allowoverride", "printall", "printnone", "Log",
   "__init__", "_fromoptions", "log", "printlog", "printmessage", "warning"]

/-- Python attribute lookup `logging.<name>` on the module-level `Logging`
instance of src/requesthandler.py: raises `AttributeError` when the name is
not an attribute of the instance. -/
def Logging.getattr (name : String) : Except PyError Unit :=
  if name ∈ loggingInstanceAttributes then .ok ()
  else .error (.attributeError
    ("\x27Logging\x27 object has no attribute \x27" ++ name ++ "\x27"))

/-- `enable_logging` of src/requesthandler.py (lines 369-373): its body is
`logging.enable()`, an attribute lookup on the `Logging` instance. -/
def enable_logging : Except PyError Unit := Logging.getattr "enable"

/-- `disable_logging` of src/requesthandler.py (lines 376-380): its body is
`logging.disable()`, an attribute lookup on the `Logging` instance. -/
def disable_logging : Except PyError Unit := Logging.getattr "disable"

/-- The effect of importing the `requesthandler` module: after the
definitions, line 383 executes `disable_logging()` at import time, so
the import completes only if that call does. -/
def requesthandlerImport : Except PyError Unit := disable_logging

/-- Headers of the request handed to the transport (empty when the method
raised before reaching the transport). -/
def requestHeaders (r : RequestResult) : List (String × String) :=
  match r.request with
  | some q => q.headers
  | none => []

/-- Whether a transport outcome is classified as "no internet" by the
connection-error handler: a connection error whose text does not match the
forcibly-closed rule and contains all three no-internet substrings. -/
def probeNoInternet : TransportResult → Bool
  | .connectionError e =>
    !(pyIn forciblyClosedText e) &&
    (pyIn noConnText1 e && pyIn noConnText2 e && pyIn noConnText3 e)
  | _ => false

/-! ## Theorems -/

/-- Helper: when the line limit is truthy and exceeded (and the length limit
is unset), `truncatestring` keeps the first `m - 1` lines joined by newlines
and appends the marker. -/
theorem truncatestring_lines_exceeded (s : String) (m : Nat) (hm : m ≠ 0)
    (h : (pythonSplitlines s).length > m) :
    truncatestring s none (some m) =
      pyJoin "\n" ((pythonSplitlines s).take (m - 1)) ++ truncatedMarker := by
  unfold truncatestring
  simp [optTruthy, h, hm]

/-- C1 counterexample: the claim says every probe outcome other than the
NoInternet classification makes `check_internet` return true, including a
completed non-200 response and a generic transport failure.  On the code,
both of those outcomes raise `HTTPError` out of `check_internet` (which
catches only `NoInternetError`), so neither returns true, although neither
is classified NoInternet. -/
theorem check_internet_counterexample :
    (RequestHandler.check_internet (.success 404 "") "https://www.example.com" 5).1 ≠ .ok true
    ∧ probeNoInternet (.success 404 "") = false
    ∧ (RequestHandler.check_internet (.otherError "read timed out") "https://www.example.com" 5).1 ≠ .ok true
    ∧ probeNoInternet (.otherError "read timed out") = false := by
  refine ⟨?_, ?_, ?_, ?_⟩ <;> decide

set_option maxHeartbeats 1000000 in
/-- C1 (amended): `check_internet` returns false iff the probe outcome is
classified exactly NoInternet, and returns true iff the probe completes
with status 200; every other outcome (non-200 status, forcibly-closed or
generic transport failure, other exception) propagates out of
`check_internet` as an `HTTPError` instead of returning true, because only
`NoInternetError` is caught and `get` is called with the default
`exceptionifbadstatuscode=True`. -/
theorem check_internet_outcomes (testurl : String) (timeout : Int) (tr : TransportResult) :
    ((RequestHandler.check_internet tr testurl timeout).1 = .ok false ↔ probeNoInternet tr = true)
    ∧ (∀ b, tr = .success 200 b → (RequestHandler.check_internet tr testurl timeout).1 = .ok true)
    ∧ (∀ s b, tr = .success s b → s ≠ 200 →
        (RequestHandler.check_internet tr testurl timeout).1 =
          .error (.httpError ("Failed to check for internet connection: " ++
            ("HTTP get request to " ++ testurl ++ " failed - returned non-200 http status code ("
              ++ toString s ++ ")"))))
    ∧ (∀ e, tr = .otherError e →
        (RequestHandler.check_internet tr testurl timeout).1 =
          .error (.httpError ("Failed to check for internet connection: " ++
            ("HTTP get request to " ++ testurl ++ " failed - " ++ e))))
    ∧ (∀ e, tr = .connectionError e → probeNoInternet tr = false →
        ∃ m, (RequestHandler.check_internet tr testurl timeout).1 = .error (.httpError m)) := by
  refine ⟨?_, ?_, ?_, ?_, ?_⟩
  · cases tr with
    | success s b =>
      by_cases hs : s = 200
      · subst hs
        simp [RequestHandler.check_internet, RequestHandler.get, probeNoInternet]
      · simp [RequestHandler.check_internet, RequestHandler.get, probeNoInternet, hs,
          withContext, strTruthy]
    | otherError e =>
      simp [RequestHandler.check_internet, RequestHandler.get, probeNoInternet,
        withContext, strTruthy]
    | connectionError e =>
      cases hf : pyIn forciblyClosedText e with
      | true =>
        simp [RequestHandler.check_internet, RequestHandler.get, probeNoInternet, hf,
          withContext, strTruthy]
      | false =>
        cases h1 : pyIn noConnText1 e <;> cases h2 : pyIn noConnText2 e <;>
          cases h3 : pyIn noConnText3 e <;>
          simp [RequestHandler.check_internet, RequestHandler.get, probeNoInternet,
            hf, h1, h2, h3, withContext, strTruthy]
  · rintro b rfl
    simp [RequestHandler.check_internet, RequestHandler.get, withContext, strTruthy]
  · rintro s b rfl hs
    simp [RequestHandler.check_internet, RequestHandler.get, hs, withContext, strTruthy]
  · rintro e rfl
    simp [RequestHandler.check_internet, RequestHandler.get, withContext, strTruthy]
  · rintro e rfl hp
    simp only [probeNoInternet, Bool.and_eq_false_iff, Bool.not_eq_false] at hp
    cases hf : pyIn forciblyClosedText e with
    | true =>
      refine ⟨"Failed to check for internet connection: " ++
        ("HTTP get request to " ++ testurl ++ " failed - Connection forcibly closed by remote host"), ?_⟩
      simp [RequestHandler.check_internet, RequestHandler.get, hf, withContext, strTruthy]
    | false =>
      have htriple : (pyIn noConnText1 e && pyIn noConnText2 e && pyIn noConnText3 e) = false := by
        rcases hp with hp | hp
        · rw [hf] at hp
          simp at hp
        · rcases hp with (hp | hp) | hp <;> simp [hp]
      have hP : ¬((pyIn noConnText1 e = true ∧ pyIn noConnText2 e = true) ∧ pyIn noConnText3 e = true) := by
        rintro ⟨⟨u1, u2⟩, u3⟩
        rw [u1, u2, u3] at htriple
        simp at htriple
      refine ⟨"Failed to check for internet connection: " ++
        ("HTTP get request to " ++ testurl ++ " failed - " ++ e), ?_⟩
      simp [RequestHandler.check_internet, RequestHandler.get, hf, hP, withContext, strTruthy]

/-- C1 witness: instantiating the amended theorem at a completed 404
response yields the concrete propagated `HTTPError`. -/
theorem check_internet_outcomes_witness :
    (RequestHandler.check_internet (.success 404 "") "https://www.example.com" 5).1 =
      .error (.httpError ("Failed to check for internet connection: " ++
        ("HTTP get request to " ++ "https://www.example.com" ++
          " failed - returned non-200 http status code (" ++ toString 404 ++ ")"))) :=
  (check_internet_outcomes "https://www.example.com" 5 (.success 404 "")).2.2.1 404 "" rfl (by decide)

/-- C2: for every `post` call with a non-empty `data` body, the request
handed to the transport carries no `data` payload and no `params`: it
consists of the url, the `json` argument, the resolved headers and the
resolved timeout, exactly as `requests.post(link, json=json,
headers=headers, timeout=timeout)` is invoked; the body only influenced the
inferred Content-Type header and the log line. -/
theorem post_body_not_sent (link : String) (tr : TransportResult) (d : PostData)
    (ct : Option String) (json : Option (List (String × String))) (auth : Option String)
    (headers : List (String × String)) (timeout : Int) (em : Option String) (ex : Bool)
    (req : HttpRequest) (_hd : dataTruthy (some d) = true)
    (hreq : (RequestHandler.post link tr (some d) ct json auth headers timeout em ex).request = some req) :
    req.data = none ∧ req.params = none ∧ req.json = json ∧ req.url = link
    ∧ req.timeout = (if timeout ≤ 0 then none else some timeout) := by
  simp only [RequestHandler.post] at hreq
  split at hreq
  · simp at hreq
  · simp only [Option.some.injEq] at hreq
    subst hreq
    exact ⟨rfl, rfl, rfl, rfl, rfl⟩

/-- C2 witness: the amended-free theorem applied to a concrete post with a
string body; the transported request is exactly url + json + headers +
timeout with no data field. -/
theorem post_body_not_sent_witness :
    (HttpRequest.mk "u" none none none [("Content-Type", "text/plain")] (some 5)).data = none
    ∧ (HttpRequest.mk "u" none none none [("Content-Type", "text/plain")] (some 5)).params = none
    ∧ (HttpRequest.mk "u" none none none [("Content-Type", "text/plain")] (some 5)).json = none
    ∧ (HttpRequest.mk "u" none none none [("Content-Type", "text/plain")] (some 5)).url = "u"
    ∧ (HttpRequest.mk "u" none none none [("Content-Type", "text/plain")] (some 5)).timeout =
        (if (5 : Int) ≤ 0 then none else some 5) :=
  post_body_not_sent "u" (.success 200 "") (.str "hi") none none none [] 5 none true
    (HttpRequest.mk "u" none none none [("Content-Type", "text/plain")] (some 5))
    (by decide) (by decide)

/-- C3: `enable_logging` and `disable_logging` of the request module call
`logging.enable()` and `logging.disable()` on the module-level `Logging`
instance, which has no such attributes, so both raise `AttributeError`;
since the module executes `disable_logging()` at import time (line 383),
the import of the module fails with that `AttributeError`. -/
theorem requesthandler_import_fails :
    enable_logging = .error (.attributeError
      "\x27Logging\x27 object has no attribute \x27enable\x27")
    ∧ disable_logging = .error (.attributeError
      "\x27Logging\x27 object has no attribute \x27disable\x27")
    ∧ requesthandlerImport = .error (.attributeError
      "\x27Logging\x27 object has no attribute \x27disable\x27") := by
  refine ⟨?_, ?_, ?_⟩ <;> decide

/-- C4 counterexample: a configuration with `printall=true`,
`printnone=false` and `donotprintsuccessinfo=true` suppresses a
success-info call without override, so the claim that `printall=true ∧
printnone=false` makes `shouldPrint` true for every call, whatever the
suppression flags, fails. -/
theorem printall_gate_counterexample :
    ({ donotprintsuccessinfo := true } : Logging).printall = true
    ∧ ({ donotprintsuccessinfo := true } : Logging).printnone = false
    ∧ Logging.shouldPrint { donotprintsuccessinfo := true } .Info false true false = false := by
  decide

/-- C4 (amended): with `printall=true` and `printnone=false`, `shouldPrint`
is true for every call that survives the suppression step — every call with
`override ∧ allowoverride`, and every call neither success-info-suppressed
nor special-suppressed; suppression still applies before `printall` is
consulted. -/
theorem printall_gate (cfg : Logging) (level : LoggingLevel) (ov si sp : Bool)
    (hall : cfg.printall = true) (hnone : cfg.printnone = false)
    (hsupp : ((ov && cfg.allowoverride) ||
      (!(si && cfg.donotprintsuccessinfo) && !(sp && cfg.donotprintspecial))) = true) :
    cfg.shouldPrint level ov si sp = true := by
  obtain ⟨co, pw, pd, pi, pim, pvi, psi, ps, dns, dnsi, ao, pa, pn, lg⟩ := cfg
  simp only at hall hnone hsupp
  subst hall hnone
  cases ov <;> cases si <;> cases sp <;> simp_all [Logging.shouldPrint]
  all_goals tauto

/-- C4 witness: the amended theorem at the counterexample configuration
with an effective override. -/
theorem printall_gate_witness :
    Logging.shouldPrint { donotprintsuccessinfo := true } .Info true true false = true :=
  printall_gate { donotprintsuccessinfo := true } .Info true true false rfl rfl (by decide)

/-- C5 counterexample: with `allowoverride=true`, `printall=false`,
`printnone=false`, `donotprintspecial=true` and `printspecial=true`
(default), a special Debug call with `override=true` would be suppressed
without the override, its level flag `printdebug` is false — yet it IS
printed, via the `special and printspecial` rule, so the claim that it is
"still not printed when printAll is false and the flag matching its level
is false" fails. -/
theorem override_gate_counterexample :
    ({ printall := false, donotprintspecial := true } : Logging).allowoverride = true
    ∧ ({ printall := false, donotprintspecial := true } : Logging).printall = false
    ∧ ({ printall := false, donotprintspecial := true } : Logging).printnone = false
    ∧ ({ printall := false, donotprintspecial := true } : Logging).printspecial = true
    ∧ ({ printall := false, donotprintspecial := true } : Logging).levelFlag .Debug = false
    ∧ Logging.shouldPrint { printall := false, donotprintspecial := true } .Debug true false true = true := by
  decide

/-- C5 (amended): `override=true` with `allowoverride=true` cancels the
suppression step — the gate becomes independent of the two suppression
flags — but never bypasses `printnone` and never forces printing: the call
is still not printed when `printall` is false, the flag matching its level
is false, and the special-with-printspecial rule does not apply.  (A
special call with `printspecial=true` is printed even when its level flag
is false.) -/
theorem override_gate (cfg : Logging) (level : LoggingLevel) (si sp : Bool)
    (hao : cfg.allowoverride = true) :
    (cfg.shouldPrint level true si sp =
      Logging.shouldPrint { cfg with donotprintsuccessinfo := false, donotprintspecial := false }
        level true si sp)
    ∧ (cfg.printnone = true → cfg.shouldPrint level true si sp = false)
    ∧ (cfg.printnone = false → cfg.printall = false → cfg.levelFlag level = false →
        (sp && cfg.printspecial) = false → cfg.shouldPrint level true si sp = false) := by
  obtain ⟨co, pw, pd, pi, pim, pvi, psi, ps, dns, dnsi, ao, pa, pn, lg⟩ := cfg
  simp only at hao
  subst hao
  refine ⟨?_, ?_, ?_⟩
  · simp [Logging.shouldPrint]
  · intro h
    simp only at h
    subst h
    simp [Logging.shouldPrint]
  · intro h1 h2 h3 h4
    simp only at h1 h2
    subst h1 h2
    cases level <;> simp_all [Logging.shouldPrint, Logging.levelFlag]

/-- C5 witness: the amended theorem at a configuration where an overridden
success-info call is not printed because its level flag is false and the
special rule does not apply. -/
theorem override_gate_witness :
    Logging.shouldPrint { printall := false, donotprintsuccessinfo := true } .Debug true true false = false :=
  (override_gate { printall := false, donotprintsuccessinfo := true } .Debug true false rfl).2.2
    rfl rfl (by decide) (by decide)

/-- C6 counterexample: on the 3-line string "a\nb\nc" with `maxlines=2` and
`maxlength=None`, `_truncatestring` returns only the FIRST line with the
marker appended, not first line + newline + second line + marker as the
claim states. -/
theorem truncate_three_lines_counterexample :
    truncatestring "a\nb\nc" none (some 2) = "a" ++ truncatedMarker
    ∧ truncatestring "a\nb\nc" none (some 2) ≠ "a\nb" ++ truncatedMarker := by
  refine ⟨?_, ?_⟩ <;> decide

/-- C6 (amended): for every string of exactly 3 lines, `_truncatestring`
with `maxlines=2` and `maxlength` unset returns the first `maxlines - 1 = 1`
lines — i.e. just the first line — with the truncation marker appended
directly; the second line is not included. -/
theorem truncate_three_lines (s : String) (h : (pythonSplitlines s).length = 3) :
    truncatestring s none (some 2) = (pythonSplitlines s).headD "" ++ truncatedMarker := by
  have h2 : (pythonSplitlines s).length > 2 := by
    rw [h]
    decide
  rw [truncatestring_lines_exceeded s 2 (by decide) h2]
  congr 1
  cases hl : pythonSplitlines s with
  | nil =>
    rw [hl] at h
    simp at h
  | cons a t => simp [pyJoin]

/-- C6 witness: the amended theorem evaluated on "a\nb\nc". -/
theorem truncate_three_lines_witness :
    truncatestring "a\nb\nc" none (some 2) = (pythonSplitlines "a\nb\nc").headD "" ++ truncatedMarker :=
  truncate_three_lines "a\nb\nc" (by decide)

/-- C7: the connection-failure classifier of `get` and `post` applies its
substring rules in priority order: text matching the forcibly-closed rule
yields an `HTTPError` with that specific reason (in both methods worded as
a "get" failure, per the source); otherwise text containing all three
no-internet substrings yields `NoInternetError`; any other text yields an
`HTTPError` carrying the raw underlying message.  Classification is a pure
function of the error text (the embedding is a function, hence
deterministic). -/
theorem connection_error_classification (link e : String) :
    (pyIn forciblyClosedText e = true →
      (RequestHandler.get link (.connectionError e) [] none true [] 5 none true).result =
        .error (.httpError ("HTTP get request to " ++ link ++
          " failed - Connection forcibly closed by remote host"))
      ∧ (RequestHandler.post link (.connectionError e) none none none none [] 5 none true).result =
        .error (.httpError ("HTTP get request to " ++ link ++
          " failed - Connection forcibly closed by remote host")))
    ∧ (pyIn forciblyClosedText e = false →
       (pyIn noConnText1 e && pyIn noConnText2 e && pyIn noConnText3 e) = true →
      (RequestHandler.get link (.connectionError e) [] none true [] 5 none true).result =
        .error (.noInternetError ("HTTP get request to " ++ link ++ " failed - No internet connection"))
      ∧ (RequestHandler.post link (.connectionError e) none none none none [] 5 none true).result =
        .error (.noInternetError ("HTTP post request to " ++ link ++ " failed - No internet connection")))
    ∧ (pyIn forciblyClosedText e = false →
       (pyIn noConnText1 e && pyIn noConnText2 e && pyIn noConnText3 e) = false →
      (RequestHandler.get link (.connectionError e) [] none true [] 5 none true).result =
        .error (.httpError ("HTTP get request to " ++ link ++ " failed - " ++ e))
      ∧ (RequestHandler.post link (.connectionError e) none none none none [] 5 none true).result =
        .error (.httpError ("HTTP post request to " ++ link ++ " failed - " ++ e))) := by
  refine ⟨fun h1 => ⟨?_, ?_⟩, fun h1 h2 => ?_, fun h1 h2 => ?_⟩
  · simp [RequestHandler.get, h1, withContext, strTruthy]
  · simp [RequestHandler.post, h1, withContext, strTruthy]
  · simp only [Bool.and_eq_true] at h2
    obtain ⟨⟨u1, u2⟩, u3⟩ := h2
    constructor
    · simp [RequestHandler.get, h1, u1, u2, u3, withContext, strTruthy]
    · simp [RequestHandler.post, h1, u1, u2, u3, withContext, strTruthy]
  · have hP : ¬((pyIn noConnText1 e = true ∧ pyIn noConnText2 e = true) ∧ pyIn noConnText3 e = true) := by
      rintro ⟨⟨u1, u2⟩, u3⟩
      rw [u1, u2, u3] at h2
      simp at h2
    constructor
    · simp [RequestHandler.get, h1, hP, withContext, strTruthy]
    · simp [RequestHandler.post, h1, hP, withContext, strTruthy]

set_option maxRecDepth 40000 in
/-- C7 witness: a concrete error text containing the three no-internet
substrings but not the forcibly-closed text is classified `NoInternetError`. -/
theorem connection_error_classification_witness :
    (RequestHandler.get "u" (.connectionError
      ("xx Failed to establish a new connection: yy Max retries exceeded with url: zz Caused by NewConnectionError qq"))
      [] none true [] 5 none true).result =
      .error (.noInternetError ("HTTP get request to " ++ "u" ++ " failed - No internet connection")) :=
  ((connection_error_classification "u"
    "xx Failed to establish a new connection: yy Max retries exceeded with url: zz Caused by NewConnectionError qq").2.1
    (by decide) (by decide)).1

set_option maxHeartbeats 1000000 in
/-- C8: content-type resolution of `post` when a body is given and no
Content-Type header is present: an explicitly given (truthy) `contenttype`
is placed in the headers; otherwise a string body infers text/plain and a
dict body infers application/json; any other body type raises the
`ValueError` (ContentTypeUndetected); and with no body the resolution is
skipped entirely, so no such failure can occur whatever the transport does. -/
theorem post_content_type_rules (link : String) (tr : TransportResult)
    (json : Option (List (String × String))) (auth : Option String)
    (headers : List (String × String)) (timeout : Int) (em : Option String) (ex : Bool)
    (hno : List.lookup "Content-Type" headers = none) :
    (∀ d ct, strTruthy (some ct) = true →
      ("Content-Type", ct) ∈ requestHeaders
        (RequestHandler.post link tr (some d) (some ct) json auth headers timeout em ex))
    ∧ (∀ s, ("Content-Type", "text/plain") ∈ requestHeaders
        (RequestHandler.post link tr (some (.str s)) none json auth headers timeout em ex))
    ∧ (∀ kv, ("Content-Type", "application/json") ∈ requestHeaders
        (RequestHandler.post link tr (some (.dict kv)) none json auth headers timeout em ex))
    ∧ (∀ r, (RequestHandler.post link tr (some (.other r)) none json auth headers timeout em ex).result
        = .error (.valueError (contentTypeErrorText link)))
    ∧ (∀ m, (RequestHandler.post link tr none none json auth headers timeout em ex).result
        ≠ .error (.valueError m)) := by
  refine ⟨?_, ?_, ?_, ?_, ?_⟩
  · intro d ct hct
    simp only [strTruthy] at hct
    simp [RequestHandler.post, requestHeaders, hno, strTruthy, hct]
    split <;> simp
  · intro s
    simp [RequestHandler.post, requestHeaders, hno, strTruthy]
    split <;> simp
  · intro kv
    simp [RequestHandler.post, requestHeaders, hno, strTruthy]
    split <;> simp
  · intro r
    simp [RequestHandler.post, hno, strTruthy]
  · intro m
    cases tr <;> simp [RequestHandler.post, withContext, strTruthy] <;> split_ifs <;> simp

/-- C8 witness: a string body with no explicit content type gets
text/plain in the transported headers. -/
theorem post_content_type_rules_witness :
    ("Content-Type", "text/plain") ∈ requestHeaders
      (RequestHandler.post "u" (.success 200 "") (some (.str "hi")) none none none [] 5 none true) :=
  (post_content_type_rules "u" (.success 200 "") none none [] 5 none true rfl).2.1 "hi"

/-- C9: for every completed response, status 200 never produces the
bad-status failure (the response is returned whatever the flag); a non-200
status with `exceptionifbadstatuscode=true` raises `HTTPError` carrying the
status code in its message; with the flag false the response carrying that
status is returned successfully, and the non-200 status is recorded through
a log call flagged success-info, in both `get` and `post`. -/
theorem bad_status_handling (link b : String) (s : Nat) :
    (∀ ex : Bool,
      (RequestHandler.get link (.success 200 b) [] none true [] 5 none ex).result = .ok (200, b))
    ∧ (∀ ex : Bool,
      (RequestHandler.post link (.success 200 b) none none none none [] 5 none ex).result = .ok (200, b))
    ∧ (s ≠ 200 →
        (RequestHandler.get link (.success s b) [] none true [] 5 none true).result =
          .error (.httpError ("HTTP get request to " ++ link ++
            " failed - returned non-200 http status code (" ++ toString s ++ ")"))
        ∧ (RequestHandler.post link (.success s b) none none none none [] 5 none true).result =
          .error (.httpError ("HTTP post request to " ++ link ++
            " failed - returned non-200 http status code (" ++ toString s ++ ")")))
    ∧ (s ≠ 200 →
        (RequestHandler.get link (.success s b) [] none true [] 5 none false).result = .ok (s, b)
        ∧ (RequestHandler.post link (.success s b) none none none none [] 5 none false).result = .ok (s, b)
        ∧ LogCall.mk ("HTTP get request to " ++ link ++
            " failed - returned non-200 http status code (" ++ toString s ++ ")") .Info false true false
            ∈ (RequestHandler.get link (.success s b) [] none true [] 5 none false).calls
        ∧ LogCall.mk ("HTTP post request to " ++ link ++
            " failed - returned non-200 http status code (" ++ toString s ++ ")") .Info false true false
            ∈ (RequestHandler.post link (.success s b) none none none none [] 5 none false).calls) := by
  refine ⟨?_, ?_, ?_, ?_⟩
  · intro ex
    simp [RequestHandler.get]
  · intro ex
    simp [RequestHandler.post]
  · intro hs
    constructor
    · simp [RequestHandler.get, hs, withContext, strTruthy]
    · simp [RequestHandler.post, hs, withContext, strTruthy]
  · intro hs
    refine ⟨?_, ?_, ?_, ?_⟩
    · simp [RequestHandler.get, hs]
    · simp [RequestHandler.post, hs]
    · simp [RequestHandler.get, hs]
    · simp [RequestHandler.post, hs]

/-- C9 witness: a 404 response with the flag off is returned successfully. -/
theorem bad_status_handling_witness :
    (RequestHandler.get "u" (.success 404 "") [] none true [] 5 none false).result = .ok (404, "") :=
  ((bad_status_handling "u" "" 404).2.2.2 (by decide)).1

/-- C10: every call to `log` and every call to `warning` appends exactly
one entry to the sink's `Log` history, at the end and regardless of the
gating outcome (`printnone`, suppression, level flags, the global enable
switch): the new history is the old history plus one entry, so entries
accumulate in call order and the history only grows; printing is only the
returned rendered line, never a filter on the history. -/
theorem log_history_append (self : Logging) (enabled : Bool)
    (message : String) (level : LoggingLevel) (ov si sp : Bool) (wt : Option String) :
    (self.log enabled message level ov si sp).1.Log = self.Log ++ [message]
    ∧ (self.warning enabled message wt).1.Log =
        self.Log ++ [if strTruthy wt then "[Warning]: " ++ wt.getD "" ++ ": " ++ message
                     else "[Warning]: " ++ message] := by
  constructor
  · unfold Logging.log
    split <;> rfl
  · unfold Logging.warning
    split <;> simp_all
